import Mathlib

/-
Verification development for the kbase-jsonrpcbase repository
(jsonrpc11base: a transport-agnostic JSON-RPC 1.1 service dispatcher).

The Python sources `src/jsonrpc11base/main.py` and
`src/jsonrpc11base/errors.py` are shallowly embedded below.  JSON values
decoded by `json.loads` are modelled by the inductive `JsonValue`
(Python `None` and JSON `null` are both `JsonValue.null`, exactly the
conflation `json.loads` performs).  Python exceptions are modelled by
the inductive `PyExc`; fallible code returns `Except PyExc _`.
Python dicts are association lists in insertion order; assignment to an
existing key replaces the value in place, assignment to a fresh key
appends (`dictSet`).
-/

inductive JsonValue where
  | null : JsonValue
  | bool (b : Bool) : JsonValue
  | num (n : Int) : JsonValue
  | str (s : String) : JsonValue
  | arr (elems : List JsonValue) : JsonValue
  | obj (fields : List (String × JsonValue)) : JsonValue

/-- Whether one character list begins with another. -/
def charListStarts : List Char → List Char → Bool
  | _, [] => true
  | [], _ :: _ => false
  | c :: cs, d :: ds => c = d && charListStarts cs ds

/-- Python `s.startswith(pre)`. -/
def startswith (s pre : String) : Bool := charListStarts s.data pre.data

/-- Python `v is None` (with JSON `null` decoded to Python `None`). -/
def isNull : JsonValue → Bool
  | .null => true
  | _ => false

/-- Association-list lookup, mirroring Python dict key lookup
(`d[k]` / `k in d`) on insertion-ordered dicts. -/
def alistLookup {α : Type} : List (String × α) → String → Option α
  | [], _ => none
  | (k, v) :: rest, key => if k = key then some v else alistLookup rest key

/-- Python dict assignment `d[k] = v`: replace in place when the key is
present, append when it is fresh. -/
def dictSet (fields : List (String × JsonValue)) (key : String) (v : JsonValue) :
    List (String × JsonValue) :=
  if (alistLookup fields key).isSome then
    fields.map (fun p => if p.1 = key then (key, v) else p)
  else fields ++ [(key, v)]

/-- Python `d.get(k)` on a dict: the value when present, `None` (modelled
as `JsonValue.null`) when absent. -/
def pyGetFields (fields : List (String × JsonValue)) (key : String) : JsonValue :=
  (alistLookup fields key).getD JsonValue.null

/-- Python `d.get(k)` on an arbitrary decoded value; only ever applied to
dict-shaped values in the embedded code. -/
def pyGet (v : JsonValue) (key : String) : JsonValue :=
  match v with
  | .obj fields => pyGetFields fields key
  | _ => JsonValue.null

/-- Python `k in d` on a dict-shaped value. -/
def dictContains (v : JsonValue) (key : String) : Bool :=
  match v with
  | .obj fields => (alistLookup fields key).isSome
  | _ => false

/-- A single quote character, kept out of string literals. -/
def sglQuote : String := "\x27"

/-- A structured schema-violation report carrying message, offending path
and offending value (spec section 2, Validation Capability; raised by the
validation layer as `SchemaError`). -/
structure SchemaViolation where
  message : String
  path : JsonValue
  value : JsonValue

/-- The Python exceptions that can cross the boundaries the embedded code
observes.  `jsonrpc` covers the `JSONRPCError` family of `errors.py`
(instances carry `code`, `message : Optional[str]`, `data : Optional[dict]`),
`api` covers the `APIError` family, `schemaError` the validation layer's
`SchemaError`, `typeError`/`keyError` the builtin exceptions raised by a
failed `RPC_ERRORS[code]` lookup, `duplicateMethodName` the registration
exception, and `other` any other exception, carrying `str(ex)`. -/
inductive PyExc where
  | jsonrpc (code : Int) (message : Option String) (data : Option (List (String × JsonValue)))
  | api (code : Int) (message : Option String) (data : Option (List (String × JsonValue)))
  | schemaError (violation : SchemaViolation)
  | typeError (msg : String)
  | keyError (key : String)
  | duplicateMethodName (msg : String)
  | other (msg : String)

/-- Python `str(ex)` for the modelled exceptions.  A `JSONRPCError` or
`APIError` never reaches a context that stringifies it (they are caught by
their own `except` clauses), and the builtin exceptions carry their
message directly. -/
def pyExcStr : PyExc → String
  | .jsonrpc _ _ _ => ""
  | .api _ _ _ => ""
  | .schemaError v => v.message
  | .typeError m => m
  | .keyError k => k
  | .duplicateMethodName m => m
  | .other m => m

/-- Modelled from the spec: the `Method` class (`jsonrpc11base/method.py`
is absent from the sources).  Per spec section 3, a RegisteredMethod wraps a
handler `callable(params, options) -> any`; a handler that raises is
modelled as returning `Except.error`. -/
structure Method where
  call : JsonValue → JsonValue → Except PyExc JsonValue

/-- Modelled from the spec: the Validation Capability interface of spec
section 6 (`jsonrpc11base/validation/validation.py` is absent from the
sources).  `validate_params` / `validate_result` report `some violation`
on failure and `none` on success; per spec section 4.2 step 4 a params
violation is raised as `InvalidParamsError` with the violation payload,
and per step 6 plus the source comment above `except SchemaError` in
`main.py`, a result violation is raised as `SchemaError`.
`validate_absent_params` is modelled as a no-op since step 4 says
"params absent => proceed". -/
structure Validation where
  has_params_validation : String → Bool
  has_absent_params_validation : String → Bool
  validate_params : String → JsonValue → Option SchemaViolation
  has_result_validation : String → Bool
  has_absent_result_validation : String → Bool
  validate_result : String → JsonValue → Option SchemaViolation

/-- The service state of `JSONRPCService.__init__` (`main.py`):
the optional service validation bindings, the fixed system validation
bindings, the method registry (pre-seeded with `system.describe`), the
result-validation flag and the service description collaborator
(modelled by its `to_json()` value, spec section 6). -/
structure JSONRPCService where
  service_validation : Option Validation
  system_validation : Validation
  method_registry : List (String × Method)
  validate_result : Bool
  description : JsonValue

/-- `errors.py` `RPC_ERRORS`: the table of predefined protocol error
messages. -/
def RPC_ERRORS : List (Int × String) :=
  [(-32700, "Parse error"),
   (-32600, "Invalid Request"),
   (-32601, "Method not found"),
   (-32602, "Invalid params"),
   (-32603, "Internal error"),
   (-32000, "Server error")]

def intAlistLookup : List (Int × String) → Int → Option String
  | [], _ => none
  | (k, v) :: rest, key => if k = key then some v else intAlistLookup rest key

/-- Python `RPC_ERRORS[code]` where `code` is whatever value was passed in
the `code` position: an `int` key is looked up (raising `KeyError` when
absent), an unhashable `dict` or `list` key raises `TypeError`, and the
remaining hashable values are simply absent from the table (`KeyError`;
the carried key text of those unexercised branches is not significant). -/
def rpcErrorsLookup (code : JsonValue) : Except PyExc String :=
  match code with
  | .num n =>
      match intAlistLookup RPC_ERRORS n with
      | some s => Except.ok s
      | none => Except.error (.keyError (toString n))
  | .obj _ => Except.error (.typeError ("unhashable type: " ++ sglQuote ++ "dict" ++ sglQuote))
  | .arr _ => Except.error (.typeError ("unhashable type: " ++ sglQuote ++ "list" ++ sglQuote))
  | .str s => Except.error (.keyError s)
  | .bool b => Except.error (.keyError (toString b))
  | .null => Except.error (.keyError "None")

/-- `errors.py` `make_jsonrpc_error(code, message=None, error=None)`.
`error_message = message or RPC_ERRORS[code]` evaluates the table lookup
whenever `message` is falsy (absent or empty), so a non-int `code` makes
the function raise instead of returning an error object. -/
def make_jsonrpc_error (code : JsonValue) (message : Option String)
    (error : Option (List (String × JsonValue))) : Except PyExc JsonValue :=
  let msgResult : Except PyExc String :=
    match message with
    | some m => if m = "" then rpcErrorsLookup code else Except.ok m
    | none => rpcErrorsLookup code
  match msgResult with
  | .error e => Except.error e
  | .ok error_message =>
      let base := [("name", JsonValue.str "JSONRPCError"),
                   ("code", code),
                   ("message", JsonValue.str error_message)]
      match error with
      | some err => Except.ok (JsonValue.obj (base ++ [("error", JsonValue.obj err)]))
      | none => Except.ok (JsonValue.obj base)

/-- `errors.py` `make_jsonrpc_error_response(error, id=None)`: the error
envelope, with the `id` field included only when `id is not None`. -/
def make_jsonrpc_error_response (error : JsonValue) (id : JsonValue) : JsonValue :=
  if isNull id then
    JsonValue.obj [("version", JsonValue.str "1.1"), ("error", error)]
  else
    JsonValue.obj [("version", JsonValue.str "1.1"), ("error", error), ("id", id)]

/-- Python `str(message)` for the `Optional[str]` message attribute of the
exception classes (`str(None)` is the string "None"). -/
def pyStrOpt : Option String → String
  | some s => s
  | none => "None"

/-- `errors.py` `JSONRPCError.to_json`: name, code, message, and the
`error` field only when `data` is not `None`. -/
def JSONRPCError_to_json (code : Int) (message : Option String)
    (data : Option (List (String × JsonValue))) : JsonValue :=
  let base := [("name", JsonValue.str "JSONRPCError"),
               ("code", JsonValue.num code),
               ("message", JsonValue.str (pyStrOpt message))]
  match data with
  | some d => JsonValue.obj (base ++ [("error", JsonValue.obj d)])
  | none => JsonValue.obj base

/-- `errors.py` `APIError.to_json`; identical to `JSONRPCError.to_json`
except for the `name` field. -/
def APIError_to_json (code : Int) (message : Option String)
    (data : Option (List (String × JsonValue))) : JsonValue :=
  let base := [("name", JsonValue.str "APIError"),
               ("code", JsonValue.num code),
               ("message", JsonValue.str (pyStrOpt message))]
  match data with
  | some d => JsonValue.obj (base ++ [("error", JsonValue.obj d)])
  | none => JsonValue.obj base

/-- The `make_error_response` closure inside `call_py` (`main.py`):
when a method name is known, the error object's structured `error` field
is created if missing and extended with `method = method_name`, then the
envelope is built with `make_jsonrpc_error_response(error, id)`.  In every
flow of the engine the error value is a dict whose `error` field, when
present, is itself a dict, so the remaining patterns are unreachable and
fall through to the plain envelope. -/
def make_error_response (method_name : JsonValue) (id : JsonValue)
    (error : JsonValue) : JsonValue :=
  if isNull method_name then make_jsonrpc_error_response error id
  else
    match error with
    | .obj fields =>
        match alistLookup fields "error" with
        | some (.obj inner) =>
            make_jsonrpc_error_response
              (JsonValue.obj (dictSet fields "error"
                (JsonValue.obj (dictSet inner "method" method_name)))) id
        | some _ => make_jsonrpc_error_response error id
        | none =>
            make_jsonrpc_error_response
              (JsonValue.obj (fields ++ [("error", JsonValue.obj [("method", method_name)])])) id
    | _ => make_jsonrpc_error_response error id

/-- The `make_result_response` closure inside `call_py` (`main.py`):
`{version, result}` plus `id = req_data[id]` iff the request object
contained an `id` key. -/
def make_result_response (has_id : Bool) (id : JsonValue) (result : JsonValue) : JsonValue :=
  if has_id then
    JsonValue.obj [("version", JsonValue.str "1.1"), ("result", result), ("id", id)]
  else
    JsonValue.obj [("version", JsonValue.str "1.1"), ("result", result)]

/-- Whether the `params` field of a request satisfies the request schema:
absent, or a JSON array or object (never a scalar and never `null` —
see the source comment in `call_py`: "params is optional, but must be a
JSON array or object (enforced with the jsonschema)"). -/
def isValidParamsField : Option JsonValue → Bool
  | none => true
  | some (.arr _) => true
  | some (.obj _) => true
  | some _ => false

/-- Whether the `id` field of a request satisfies the request schema:
absent, a number, or a string (spec section 3, Identifier). -/
def isValidIdField : Option JsonValue → Bool
  | none => true
  | some (.num _) => true
  | some (.str _) => true
  | some _ => false

/-- Whether the `method` field is a present string. -/
def isStringField : Option JsonValue → Bool
  | some (.str _) => true
  | _ => false

/-- Whether the `version` field is the string "1.1". -/
def isVersionField : Option JsonValue → Bool
  | some (.str s) => s = "1.1"
  | _ => false

/-- Modelled from the spec: the fixed JSON-RPC 1.1 request schema
(`self.jsonrpc_schemas.validate("request", req_data)` in `call_py`; the
packaged `jsonrpc_schema` directory and the `Schema` class are absent from
the sources).  Per spec section 3 a MethodRequest is
`{version, method: string, params?: array-or-object, id?: Identifier}`
with an Identifier being absent, a number, or a string; a violation is
raised as `SchemaError` carrying message, path and value.  The violation
message texts below are this model's own. -/
def validateRequestSchema (req : JsonValue) : Option SchemaViolation :=
  match req with
  | .obj fields =>
      if !isVersionField (alistLookup fields "version") then
        some ⟨"version must be the string 1.1", JsonValue.str "version",
              pyGetFields fields "version"⟩
      else if !isStringField (alistLookup fields "method") then
        some ⟨"method is required and must be a string", JsonValue.str "method",
              pyGetFields fields "method"⟩
      else if !isValidParamsField (alistLookup fields "params") then
        some ⟨"params must be an array or an object", JsonValue.str "params",
              pyGetFields fields "params"⟩
      else if !isValidIdField (alistLookup fields "id") then
        some ⟨"id must be a number or a string", JsonValue.str "id",
              pyGetFields fields "id"⟩
      else none
  | _ => some ⟨"request must be an object", JsonValue.null, req⟩

/-- The body of the `do_method` closure of `call_py` (`main.py`) after the
validator has been selected.  Params-role validation: a declared
params-role with absent params, a reported violation, a declared
absent-params-role with present params, or a method with neither role all
raise `InvalidParamsError` (code -32602, class message "Invalid params");
otherwise the handler is invoked with `(params, options)`. -/
def do_method_validator (validator : Option Validation) (method_name : String)
    (method : Method) (params options : JsonValue) : Except PyExc JsonValue :=
  match validator with
  | some v =>
      if v.has_params_validation method_name then
        if isNull params then
          Except.error (.jsonrpc (-32602) (some "Invalid params")
            (some [("message",
              JsonValue.str "Method has parameters specified, but none were provided")]))
        else
          match v.validate_params method_name params with
          | some viol =>
              Except.error (.jsonrpc (-32602) (some "Invalid params")
                (some [("message", JsonValue.str viol.message),
                       ("path", viol.path),
                       ("value", viol.value)]))
          | none => method.call params options
      else if v.has_absent_params_validation method_name then
        if isNull params then method.call JsonValue.null options
        else
          Except.error (.jsonrpc (-32602) (some "Invalid params")
            (some [("message",
              JsonValue.str "Method has no parameters specified, but arguments were provided")]))
      else
        Except.error (.jsonrpc (-32602) (some "Invalid params")
          (some [("message",
            JsonValue.str "Validation is enabled, but no parameter validator was provided")]))
  | none => method.call params options

/-- The `do_method` closure of `call_py` (`main.py`): the validator is the
fixed system validation for names in the reserved `system.` namespace and
the service validation otherwise; with no validator configured the handler
is invoked with the raw params. -/
def do_method (svc : JSONRPCService) (method_name : String) (method : Method)
    (params options : JsonValue) : Except PyExc JsonValue :=
  do_method_validator
    (if startswith method_name "system." then some svc.system_validation
     else svc.service_validation)
    method_name method params options

/-- The `do_result` closure of `call_py` (`main.py`).  Note that it
consults `self.service_validation` unconditionally — the system validation
is never used for the result role.  A reported violation is raised as
`SchemaError`; a value returned by a method declared to return none is
raised as `ServerError_InvalidResult` (code -32002, class message
"Invalid result", data `{bad_result: ...}`). -/
def do_result (svc : JSONRPCService) (method_name : String) (result : JsonValue) :
    Except PyExc JsonValue :=
  if !svc.validate_result then Except.ok result
  else
    match svc.service_validation with
    | none => Except.ok result
    | some sv =>
        if !sv.has_result_validation method_name then
          Except.error (.jsonrpc (-32602) (some "Invalid params")
            (some [("message",
              JsonValue.str "Validation is enabled, but no result validator was provided")]))
        else if sv.has_absent_result_validation method_name then
          if isNull result then Except.ok JsonValue.null
          else
            Except.error (.jsonrpc (-32002) (some "Invalid result")
              (some [("bad_result", JsonValue.obj [("message",
                JsonValue.str "The method is specified to not return a result, but a value was returned")])]))
        else
          match sv.validate_result method_name result with
          | some viol => Except.error (.schemaError viol)
          | none => Except.ok result

/-- The try-body composition `do_result(do_method())` of `call_py`. -/
def invoke (svc : JSONRPCService) (method_name : String) (method : Method)
    (params options : JsonValue) : Except PyExc JsonValue :=
  match do_method svc method_name method params options with
  | .ok r => do_result svc method_name r
  | .error e => Except.error e

/-- Python `traceback.format_exc(limit=1000).split("\n")` in the
catch-all handler of `call_py`: its text is runtime-dependent, modelled
as a fixed placeholder line list. -/
def format_exc (e : PyExc) : JsonValue :=
  JsonValue.arr [JsonValue.str ("Traceback: " ++ pyExcStr e)]

/-- The `except` clauses of `call_py` (`main.py`), in source order:
`SchemaError` (from result validation) builds its payload and passes it to
`make_jsonrpc_error` — in the position of the `code` parameter, so the
`RPC_ERRORS[code]` lookup raises `TypeError` on the dict; `JSONRPCError`
is converted with its own `to_json`; `APIError` with a code inside the
reserved band [-32768, -32000] is replaced by
`ServerError_ReservedErrorCode` (code -32001, message
"Reserved Error Code", data `{bad_code: ...}`, serialized by the
inherited `JSONRPCError.to_json`), other `APIError`s are converted with
`APIError.to_json`; any remaining exception becomes the code -32002
"Exception calling method" envelope with the original exception text
under `exception_message`. -/
def handle_call_exception (method_name : JsonValue) (id : JsonValue) (e : PyExc) :
    Except PyExc JsonValue :=
  match e with
  | .schemaError ex =>
      match make_jsonrpc_error
              (JsonValue.obj [("message", JsonValue.str ex.message),
                              ("path", ex.path),
                              ("value", ex.value)]) none none with
      | .error e2 => Except.error e2
      | .ok error => Except.ok (make_error_response method_name id error)
  | .jsonrpc code message data =>
      Except.ok (make_error_response method_name id (JSONRPCError_to_json code message data))
  | .api code message data =>
      if -32768 ≤ code ∧ code ≤ -32000 then
        Except.ok (make_error_response method_name id
          (JSONRPCError_to_json (-32001) (some "Reserved Error Code")
            (some [("bad_code", JsonValue.num code)])))
      else
        Except.ok (make_error_response method_name id (APIError_to_json code message data))
  | ex =>
      match make_jsonrpc_error (JsonValue.num (-32002)) (some "Exception calling method")
              (some [("message",
                      JsonValue.str "An unexpected exception was caught executing the method"),
                     ("exception_message", JsonValue.str (pyExcStr ex)),
                     ("traceback", format_exc ex)]) with
      | .error e2 => Except.error e2
      | .ok error => Except.ok (make_error_response method_name id error)

/-- `JSONRPCService.call_py` (`main.py`): the object-in/object-out entry
point.  Request structural validation, best-effort `id` extraction on
failure, method resolution with the -32601 envelope listing the
registered names, then the try/except around
`make_result_response(do_result(do_method()))`.  The two `Except.error
(.other "unreachable: ...")` fallbacks correspond to states the source
itself assumes impossible after a passed structural validation (see the
source comment: "we can be cavalier, assuming that the method is
available in the request, since we have already validated it"). -/
def call_py (svc : JSONRPCService) (req_data : JsonValue) (options : JsonValue) :
    Except PyExc JsonValue :=
  match validateRequestSchema req_data with
  | some ex =>
      match make_jsonrpc_error (JsonValue.num (-32600)) none
              (some [("message", JsonValue.str ex.message),
                     ("path", ex.path),
                     ("value", ex.value)]) with
      | .error e => Except.error e
      | .ok error =>
          match req_data with
          | .obj fields => Except.ok (make_jsonrpc_error_response error (pyGetFields fields "id"))
          | _ => Except.ok (make_jsonrpc_error_response error JsonValue.null)
  | none =>
      match req_data with
      | .obj fields =>
          let has_id := (alistLookup fields "id").isSome
          let id := pyGetFields fields "id"
          match pyGetFields fields "method" with
          | .str method_name =>
              match alistLookup svc.method_registry method_name with
              | none =>
                  match make_jsonrpc_error (JsonValue.num (-32601)) none
                          (some [("method", JsonValue.str method_name),
                                 ("available_methods",
                                  JsonValue.arr (svc.method_registry.map
                                    (fun p => JsonValue.str p.1)))]) with
                  | .error e => Except.error e
                  | .ok error => Except.ok (make_jsonrpc_error_response error id)
              | some method =>
                  let params := pyGetFields fields "params"
                  match invoke svc method_name method params options with
                  | .ok result => Except.ok (make_result_response has_id (pyGetFields fields "id") result)
                  | .error e => handle_call_exception (JsonValue.str method_name) id e
          | _ => Except.error (.other "unreachable: method not a string after request validation")
      | _ => Except.error (.other "unreachable: request not an object after request validation")

/-- `JSONRPCService.call` (`main.py`): the string-in/string-out entry
point.  JSON decoding and encoding are the stdlib's work; the already-decoded
outcome of `json.loads` is the input here (`Except.error msg` models a
`ValueError` with text `msg`), and `Except.ok (some v)` models returning
`json.dumps(v)` while `Except.ok none` models returning Python `None`
(no output).  A `ValueError` from decoding becomes the -32700 envelope
with no id; otherwise the result of `call_py` is serialized whenever it
`is not None`. -/
def call (svc : JSONRPCService) (jsondata : Except String JsonValue)
    (options : JsonValue) : Except PyExc (Option JsonValue) :=
  match jsondata with
  | .error errmsg =>
      match make_jsonrpc_error (JsonValue.num (-32700)) none
              (some [("message", JsonValue.str errmsg)]) with
      | .error e => Except.error e
      | .ok error => Except.ok (some (make_jsonrpc_error_response error JsonValue.null))
  | .ok request_data =>
      match call_py svc request_data options with
      | .error e => Except.error e
      | .ok result => if isNull result then Except.ok none else Except.ok (some result)

/-- `JSONRPCService.add` (`main.py`), with the Python mutation made
explicit: the pair is the service state after the call together with the
raised exception, if any.  `function_name = name if name else
func.__name__`, so an absent or empty `name` falls back to the function's
own name; a name already bound raises `DuplicateMethodName`
(`jsonrpc11base/exceptions.py`, absent from the sources, modelled as the
`PyExc.duplicateMethodName` constructor) and leaves the registry
untouched, otherwise the method is appended to the registry. -/
def add (svc : JSONRPCService) (func : Method) (func_dunder_name : String)
    (name : Option String) : JSONRPCService × Option PyExc :=
  let function_name :=
    match name with
    | some n => if n = "" then func_dunder_name else n
    | none => func_dunder_name
  if (alistLookup svc.method_registry function_name).isSome then
    (svc, some (.duplicateMethodName
      ("Method already registered under this name: " ++ sglQuote ++ function_name ++ sglQuote)))
  else
    ({ svc with method_registry := svc.method_registry ++ [(function_name, func)] }, none)

/-- `JSONRPCService.__init__` (`main.py`): the registry is pre-seeded with
`system.describe` bound to the introspection handler.  Modelled from the
spec where the sources are silent: the service-description collaborator is
represented by its `to_json()` value (spec section 6), which the
`handle_system_describe` handler returns. -/
def mkService (service_validation : Option Validation) (system_validation : Validation)
    (validate_result : Bool) (description : JsonValue) : JSONRPCService :=
  { service_validation := service_validation,
    system_validation := system_validation,
    method_registry := [("system.describe", ⟨fun _ _ => Except.ok description⟩)],
    validate_result := validate_result,
    description := description }

/-- A validation capability with no schemas at all (every role absent). -/
def noRoles : Validation :=
  { has_params_validation := fun _ => false,
    has_absent_params_validation := fun _ => false,
    validate_params := fun _ _ => none,
    has_result_validation := fun _ => false,
    has_absent_result_validation := fun _ => false,
    validate_result := fun _ _ => none }

/-- A handler that echoes its params. -/
def methEcho : Method := ⟨fun params _ => Except.ok params⟩

/-- A handler that raises a plain, undeclared exception. -/
def methBoom : Method := ⟨fun _ _ => Except.error (.other "boom")⟩

/-- A handler that raises an `APIError` with the reserved-band code -32050. -/
def methCollide : Method := ⟨fun _ _ => Except.error (.api (-32050) (some "app error") none)⟩

/-- A handler that raises an `APIError` with code -32001, the code of
`ServerError_ReservedErrorCode` itself. -/
def methCollide32001 : Method := ⟨fun _ _ => Except.error (.api (-32001) (some "app error") none)⟩

/-- A handler that raises a `JSONRPCError` subclass with the reserved-band
code -32050, message "custom" and data `{x: 1}`. -/
def methProto : Method :=
  ⟨fun _ _ => Except.error (.jsonrpc (-32050) (some "custom") (some [("x", JsonValue.num 1)]))⟩

/-- A service with no schema directory (no service validation) and result
validation off, carrying the handlers above. -/
def svcPlain : JSONRPCService :=
  { service_validation := none,
    system_validation := noRoles,
    method_registry :=
      [("system.describe", ⟨fun _ _ => Except.ok (JsonValue.obj [])⟩),
       ("echo", methEcho),
       ("boom", methBoom),
       ("collide", methCollide),
       ("collide32001", methCollide32001),
       ("proto", methProto)],
    validate_result := false,
    description := JsonValue.obj [] }

/-- Service validation bindings for the result-validation fixtures: the
methods `m1` and `m2` declare a params role that accepts anything and a
result role that rejects everything, reporting a fixed violation. -/
def rejectingResults : Validation :=
  { has_params_validation := fun n => n = "m1" || n = "m2",
    has_absent_params_validation := fun _ => false,
    validate_params := fun _ _ => none,
    has_result_validation := fun n => n = "m1" || n = "m2",
    has_absent_result_validation := fun _ => false,
    validate_result := fun _ r => some ⟨"result does not match the declared schema",
                                       JsonValue.str "result", r⟩ }

/-- A service with result validation enabled whose methods return values
their declared result schemas reject. -/
def svcResultVal : JSONRPCService :=
  { service_validation := some rejectingResults,
    system_validation := noRoles,
    method_registry :=
      [("system.describe", ⟨fun _ _ => Except.ok (JsonValue.obj [])⟩),
       ("m1", ⟨fun _ _ => Except.ok (JsonValue.num 7)⟩),
       ("m2", ⟨fun _ _ => Except.ok (JsonValue.str "seven")⟩)],
    validate_result := false,
    description := JsonValue.obj [] }

/-- `svcResultVal` with result validation turned on. -/
def svcResultValOn : JSONRPCService :=
  { svcResultVal with validate_result := true }

def reqEcho1Fields : List (String × JsonValue) :=
  [("version", JsonValue.str "1.1"),
   ("method", JsonValue.str "echo"),
   ("params", JsonValue.arr [JsonValue.num 1, JsonValue.num 2]),
   ("id", JsonValue.num 1)]

def reqEcho1 : JsonValue := JsonValue.obj reqEcho1Fields

def reqNotifEchoFields : List (String × JsonValue) :=
  [("version", JsonValue.str "1.1"),
   ("method", JsonValue.str "echo"),
   ("params", JsonValue.arr [])]

def reqNotifEcho : JsonValue := JsonValue.obj reqNotifEchoFields

def reqBoomFields : List (String × JsonValue) :=
  [("version", JsonValue.str "1.1"),
   ("method", JsonValue.str "boom"),
   ("id", JsonValue.num 7)]

def reqBoom : JsonValue := JsonValue.obj reqBoomFields

def reqCollideFields : List (String × JsonValue) :=
  [("version", JsonValue.str "1.1"),
   ("method", JsonValue.str "collide"),
   ("id", JsonValue.num 8)]

def reqCollide : JsonValue := JsonValue.obj reqCollideFields

def reqCollide32001 : JsonValue :=
  JsonValue.obj [("version", JsonValue.str "1.1"),
                 ("method", JsonValue.str "collide32001"),
                 ("id", JsonValue.num 9)]

def reqProtoFields : List (String × JsonValue) :=
  [("version", JsonValue.str "1.1"),
   ("method", JsonValue.str "proto"),
   ("id", JsonValue.num 10)]

def reqProto : JsonValue := JsonValue.obj reqProtoFields

def reqM1 : JsonValue :=
  JsonValue.obj [("version", JsonValue.str "1.1"),
                 ("method", JsonValue.str "m1"),
                 ("params", JsonValue.arr []),
                 ("id", JsonValue.num 11)]

def reqM2 : JsonValue :=
  JsonValue.obj [("version", JsonValue.str "1.1"),
                 ("method", JsonValue.str "m2"),
                 ("params", JsonValue.arr []),
                 ("id", JsonValue.num 12)]

def reqMissingFields : List (String × JsonValue) :=
  [("version", JsonValue.str "1.1"),
   ("method", JsonValue.str "missing"),
   ("id", JsonValue.num 2)]

def reqMissing : JsonValue := JsonValue.obj reqMissingFields

/-- Validation bindings used as the fixed system schema set in the
`system.` namespace fixture: `system.echo` declares a params role and a
result role, both accepting everything. -/
def sysRoles : Validation :=
  { has_params_validation := fun n => n = "system.echo",
    has_absent_params_validation := fun _ => false,
    validate_params := fun _ _ => none,
    has_result_validation := fun n => n = "system.echo",
    has_absent_result_validation := fun _ => false,
    validate_result := fun _ _ => none }

/-- A service whose system schema set declares and accepts the result of
`system.echo`, while its own service schema set declares no result role
for that name; result validation is enabled. -/
def svcSys : JSONRPCService :=
  { service_validation := some noRoles,
    system_validation := sysRoles,
    method_registry :=
      [("system.describe", ⟨fun _ _ => Except.ok (JsonValue.obj [])⟩),
       ("system.echo", methEcho)],
    validate_result := true,
    description := JsonValue.obj [] }

def reqSysEchoFields : List (String × JsonValue) :=
  [("version", JsonValue.str "1.1"),
   ("method", JsonValue.str "system.echo"),
   ("params", JsonValue.arr []),
   ("id", JsonValue.num 13)]

def reqSysEcho : JsonValue := JsonValue.obj reqSysEchoFields

/-- The error envelope carries an `id` field exactly when the given id
`is not None`. -/
theorem make_jsonrpc_error_response_contains_id (e id : JsonValue) :
    dictContains (make_jsonrpc_error_response e id) "id" = !(isNull id) := by
  cases id <;> simp [make_jsonrpc_error_response, dictContains, isNull, alistLookup]

/-- Reading the `id` field back from an error envelope gives the id that
was passed (for an absent field the Python `get` conflation returns
`None` = `null` again). -/
theorem make_jsonrpc_error_response_get_id (e id : JsonValue) :
    pyGet (make_jsonrpc_error_response e id) "id" = id := by
  cases id <;> rfl

/-- `make_error_response` only decorates the error object; the envelope
and its `id` handling are those of `make_jsonrpc_error_response`. -/
theorem make_error_response_exists (mn id err : JsonValue) :
    ∃ e2, make_error_response mn id err = make_jsonrpc_error_response e2 id := by
  unfold make_error_response
  repeat' split
  all_goals exact ⟨_, rfl⟩

/-- The success envelope carries an `id` field exactly when the request
object contained the `id` key. -/
theorem make_result_response_contains_id (has_id : Bool) (id r : JsonValue) :
    dictContains (make_result_response has_id id r) "id" = has_id := by
  cases has_id <;> simp [make_result_response, dictContains, alistLookup]

/-- Reading the `id` field back from a success envelope. -/
theorem make_result_response_get_id (has_id : Bool) (id r : JsonValue) :
    pyGet (make_result_response has_id id r) "id" = if has_id then id else JsonValue.null := by
  cases has_id <;> simp [make_result_response, pyGet, pyGetFields, alistLookup]

/-- Neither envelope constructor ever returns `None`/`null`. -/
theorem make_jsonrpc_error_response_not_null (e id : JsonValue) :
    isNull (make_jsonrpc_error_response e id) = false := by
  unfold make_jsonrpc_error_response
  split <;> simp [isNull]

theorem make_error_response_not_null (mn id err : JsonValue) :
    isNull (make_error_response mn id err) = false := by
  obtain ⟨e2, h⟩ := make_error_response_exists mn id err
  rw [h]; exact make_jsonrpc_error_response_not_null e2 id

theorem make_result_response_not_null (has_id : Bool) (id r : JsonValue) :
    isNull (make_result_response has_id id r) = false := by
  cases has_id <;> simp [make_result_response, isNull]

/-- A request that passes the request schema is an object. -/
theorem validRequest_obj (req : JsonValue) (h : validateRequestSchema req = none) :
    ∃ fields, req = JsonValue.obj fields := by
  cases req <;> first | exact ⟨_, rfl⟩ | simp [validateRequestSchema] at h

/-- Field shapes guaranteed by a passed request schema: version "1.1",
a string method, array-or-object params, number-or-string id. -/
theorem validRequest_fields (fields : List (String × JsonValue))
    (h : validateRequestSchema (JsonValue.obj fields) = none) :
    isVersionField (alistLookup fields "version") = true ∧
    isStringField (alistLookup fields "method") = true ∧
    isValidParamsField (alistLookup fields "params") = true ∧
    isValidIdField (alistLookup fields "id") = true := by
  unfold validateRequestSchema at h
  by_cases h1 : isVersionField (alistLookup fields "version") = true
  · by_cases h2 : isStringField (alistLookup fields "method") = true
    · by_cases h3 : isValidParamsField (alistLookup fields "params") = true
      · by_cases h4 : isValidIdField (alistLookup fields "id") = true
        · exact ⟨h1, h2, h3, h4⟩
        · simp [h1, h2, h3, h4] at h
      · simp [h1, h2, h3] at h
    · simp [h1, h2] at h
  · simp [h1] at h

/-- A valid `method` field is some string. -/
theorem isStringField_elim (v : Option JsonValue) (h : isStringField v = true) :
    ∃ s, v = some (JsonValue.str s) := by
  match v with
  | some (.str s) => exact ⟨s, rfl⟩
  | none | some .null | some (.bool _) | some (.num _) | some (.arr _) | some (.obj _) =>
      simp [isStringField] at h

/-- For a valid `id` field, the Python `get` value `is None` exactly when
the key is absent (a present id is a number or a string, never null). -/
theorem validId_isNull (fields : List (String × JsonValue))
    (h : isValidIdField (alistLookup fields "id") = true) :
    (!(isNull (pyGetFields fields "id"))) = (alistLookup fields "id").isSome := by
  unfold pyGetFields
  match hv : alistLookup fields "id" with
  | none => simp [isNull]
  | some .null | some (.bool _) | some (.arr _) | some (.obj _) =>
      rw [hv] at h; simp [isValidIdField] at h
  | some (.num _) | some (.str _) => simp [isNull]

/-- Every response the exception dispatcher returns (rather than raises)
is a non-null envelope whose `id` handling is that of
`make_jsonrpc_error_response`. -/
theorem handle_call_exception_shape (mn id : JsonValue) (e : PyExc) (resp : JsonValue)
    (h : handle_call_exception mn id e = Except.ok resp) :
    isNull resp = false ∧
    dictContains resp "id" = !(isNull id) ∧
    pyGet resp "id" = id := by
  have main : ∀ err : JsonValue, resp = make_error_response mn id err →
      isNull resp = false ∧ dictContains resp "id" = !(isNull id) ∧ pyGet resp "id" = id := by
    intro err hr
    obtain ⟨e2, he2⟩ := make_error_response_exists mn id err
    rw [hr, he2]
    exact ⟨make_jsonrpc_error_response_not_null e2 id,
           make_jsonrpc_error_response_contains_id e2 id,
           make_jsonrpc_error_response_get_id e2 id⟩
  cases e with
  | schemaError ex => simp [handle_call_exception, make_jsonrpc_error, rpcErrorsLookup] at h
  | jsonrpc code message data =>
      simp only [handle_call_exception, Except.ok.injEq] at h
      exact main _ h.symm
  | api code message data =>
      simp only [handle_call_exception] at h
      split at h <;> · simp only [Except.ok.injEq] at h; exact main _ h.symm
  | typeError m =>
      simp [handle_call_exception, make_jsonrpc_error] at h
      exact main _ h.symm
  | keyError k =>
      simp [handle_call_exception, make_jsonrpc_error] at h
      exact main _ h.symm
  | duplicateMethodName m =>
      simp [handle_call_exception, make_jsonrpc_error] at h
      exact main _ h.symm
  | other m =>
      simp [handle_call_exception, make_jsonrpc_error] at h
      exact main _ h.symm

/-- Every response `call_py` returns (rather than raises) for a
structurally valid request is a non-null envelope that carries an `id`
field exactly when the request object contained the `id` key, echoing its
value. -/
theorem call_py_ok_shape (svc : JSONRPCService) (fields : List (String × JsonValue))
    (options resp : JsonValue)
    (hvalid : validateRequestSchema (JsonValue.obj fields) = none)
    (hok : call_py svc (JsonValue.obj fields) options = Except.ok resp) :
    isNull resp = false ∧
    dictContains resp "id" = (alistLookup fields "id").isSome ∧
    pyGet resp "id" = pyGetFields fields "id" := by
  obtain ⟨-, hm, -, hid⟩ := validRequest_fields fields hvalid
  obtain ⟨s, hs⟩ := isStringField_elim _ hm
  have hids := validId_isNull fields hid
  have hpm : pyGetFields fields "method" = JsonValue.str s := by
    unfold pyGetFields; rw [hs]; rfl
  unfold call_py at hok
  simp only [hvalid, hpm] at hok
  cases hreg : alistLookup svc.method_registry s with
  | none =>
      simp only [hreg] at hok
      simp [make_jsonrpc_error, rpcErrorsLookup, RPC_ERRORS, intAlistLookup] at hok
      refine hok ▸ ⟨make_jsonrpc_error_response_not_null _ _, ?_, ?_⟩
      · rw [make_jsonrpc_error_response_contains_id, hids]
      · exact make_jsonrpc_error_response_get_id _ _
  | some method =>
      simp only [hreg] at hok
      cases hinv : invoke svc s method (pyGetFields fields "params") options with
      | ok r =>
          simp only [hinv, Except.ok.injEq] at hok
          refine hok ▸ ⟨make_result_response_not_null _ _ _, ?_, ?_⟩
          · exact make_result_response_contains_id _ _ _
          · rw [make_result_response_get_id]
            cases halist : alistLookup fields "id" with
            | none => simp [pyGetFields, halist]
            | some v => simp [pyGetFields, halist]
      | error e =>
          simp only [hinv] at hok
          obtain ⟨h1, h2, h3⟩ := handle_call_exception_shape _ _ _ _ hok
          exact ⟨h1, by rw [h2, hids], h3⟩

/-- C1: the claim states that `call_py` returns a response value and
never raises, and that `call` never raises either.  The code violates
this: when result validation reports a violation, the `except
SchemaError` handler calls `make_jsonrpc_error(error_dict)` with the
payload dict in the position of the `code` parameter, and the
`RPC_ERRORS[code]` lookup raises `TypeError: unhashable type: dict`,
which propagates out of `call_py` and out of `call` — contradicting both
docstrings ("Will not throw an exception.").  This theorem evaluates the
engine at such a failing input. -/
theorem C1_call_py_raises_on_result_schema_violation :
    call_py svcResultValOn reqM1 JsonValue.null =
      Except.error (.typeError ("unhashable type: " ++ sglQuote ++ "dict" ++ sglQuote)) ∧
    call svcResultValOn (Except.ok reqM1) JsonValue.null =
      Except.error (.typeError ("unhashable type: " ++ sglQuote ++ "dict" ++ sglQuote)) :=
  ⟨rfl, rfl⟩

/-- C2: the claim states that a result-schema violation (with result
validation enabled) yields an internal schema-error envelope carrying the
violation's message, path and value.  The code instead raises: the
violation is duly raised as `SchemaError` by `do_result` (first
conjunct), but the `except SchemaError` handler's
`make_jsonrpc_error(error_dict)` call passes the payload as the `code`
argument and the `RPC_ERRORS[code]` lookup raises `TypeError`, so no
envelope is ever produced (second conjunct). -/
theorem C2_result_violation_raises_instead_of_envelope :
    do_result svcResultValOn "m2" (JsonValue.str "seven") =
      Except.error (.schemaError ⟨"result does not match the declared schema",
        JsonValue.str "result", JsonValue.str "seven"⟩) ∧
    call_py svcResultValOn reqM2 JsonValue.null =
      Except.error (.typeError ("unhashable type: " ++ sglQuote ++ "dict" ++ sglQuote)) :=
  ⟨rfl, rfl⟩

/-- C3 counterexample: the claim states that for a notification (no `id`
key) whose lifecycle completes successfully, `call` returns nothing at
all.  At the concrete notification `reqNotifEcho` against `svcPlain` the
lifecycle succeeds, yet `call` returns the serialized success envelope
(`some ...`), not nothing (`none`). -/
theorem C3_counterexample_notification_success_returns_output :
    call svcPlain (Except.ok reqNotifEcho) JsonValue.null =
      Except.ok (some (JsonValue.obj [("version", JsonValue.str "1.1"),
                                      ("result", JsonValue.arr [])])) ∧
    call svcPlain (Except.ok reqNotifEcho) JsonValue.null ≠
      Except.ok (none : Option JsonValue) :=
  ⟨rfl, fun h => Option.noConfusion (Except.ok.inj h)⟩

/-- C3 (amended): for every structurally valid request with no `id` key
whose lifecycle completes without an internal exception, `call` returns
the serialized response — an envelope without an `id` field — rather
than no output; `call_py` never returns `None`, so `call` always
produces output for successfully decoded input. -/
theorem C3_amended_call_returns_response_for_notification
    (svc : JSONRPCService) (req options resp : JsonValue)
    (hvalid : validateRequestSchema req = none)
    (hnoid : dictContains req "id" = false)
    (hok : call_py svc req options = Except.ok resp) :
    call svc (Except.ok req) options = Except.ok (some resp) ∧
    dictContains resp "id" = false := by
  obtain ⟨fields, rfl⟩ := validRequest_obj req hvalid
  obtain ⟨hnn, hcont, -⟩ := call_py_ok_shape svc fields options resp hvalid hok
  constructor
  · simp [call, hok, hnn]
  · rw [hcont]; simpa [dictContains] using hnoid

/-- Witness for C3 (amended) at the concrete notification fixture. -/
theorem C3_witness :
    call svcPlain (Except.ok reqNotifEcho) JsonValue.null =
      Except.ok (some (JsonValue.obj [("version", JsonValue.str "1.1"),
                                      ("result", JsonValue.arr [])])) ∧
    dictContains (JsonValue.obj [("version", JsonValue.str "1.1"),
                                 ("result", JsonValue.arr [])]) "id" = false :=
  C3_amended_call_returns_response_for_notification svcPlain reqNotifEcho JsonValue.null
    (JsonValue.obj [("version", JsonValue.str "1.1"), ("result", JsonValue.arr [])])
    rfl rfl rfl

/-- C6: for every structurally valid request, the response `call_py`
returns carries an `id` field iff the request object contained the `id`
key, and its value is echoed verbatim (presence of the key, not
truthiness of the value, decides inclusion; under the request schema a
present id is a number or a string). -/
theorem C6_id_echoed_iff_present (svc : JSONRPCService) (req options resp : JsonValue)
    (hvalid : validateRequestSchema req = none)
    (hok : call_py svc req options = Except.ok resp) :
    dictContains resp "id" = dictContains req "id" ∧
    pyGet resp "id" = pyGet req "id" := by
  obtain ⟨fields, rfl⟩ := validRequest_obj req hvalid
  obtain ⟨-, hcont, hget⟩ := call_py_ok_shape svc fields options resp hvalid hok
  exact ⟨by rw [hcont]; rfl, by rw [hget]; rfl⟩

/-- Witness for C6 at the concrete `reqEcho1` fixture, whose id 1 is
echoed into the success envelope. -/
theorem C6_witness :
    dictContains (JsonValue.obj [("version", JsonValue.str "1.1"),
        ("result", JsonValue.arr [JsonValue.num 1, JsonValue.num 2]),
        ("id", JsonValue.num 1)]) "id" = dictContains reqEcho1 "id" ∧
    pyGet (JsonValue.obj [("version", JsonValue.str "1.1"),
        ("result", JsonValue.arr [JsonValue.num 1, JsonValue.num 2]),
        ("id", JsonValue.num 1)]) "id" = pyGet reqEcho1 "id" :=
  C6_id_echoed_iff_present svcPlain reqEcho1 JsonValue.null
    (JsonValue.obj [("version", JsonValue.str "1.1"),
        ("result", JsonValue.arr [JsonValue.num 1, JsonValue.num 2]),
        ("id", JsonValue.num 1)])
    rfl rfl

/-- C8: a structurally valid request naming an unregistered method yields
the -32601 "Method not found" envelope whose diagnostic data carries the
unresolved name and the complete list of registered method names, echoing
the request id. -/
theorem C8_method_not_found_envelope (svc : JSONRPCService)
    (fields : List (String × JsonValue)) (options : JsonValue) (mname : String)
    (hvalid : validateRequestSchema (JsonValue.obj fields) = none)
    (hm : alistLookup fields "method" = some (JsonValue.str mname))
    (hnf : alistLookup svc.method_registry mname = none) :
    call_py svc (JsonValue.obj fields) options =
      Except.ok (make_jsonrpc_error_response
        (JsonValue.obj [("name", JsonValue.str "JSONRPCError"),
                        ("code", JsonValue.num (-32601)),
                        ("message", JsonValue.str "Method not found"),
                        ("error", JsonValue.obj
                          [("method", JsonValue.str mname),
                           ("available_methods", JsonValue.arr
                             (svc.method_registry.map (fun p => JsonValue.str p.1)))])])
        (pyGetFields fields "id")) := by
  have hpm : pyGetFields fields "method" = JsonValue.str mname := by
    unfold pyGetFields; rw [hm]; rfl
  unfold call_py
  simp only [hvalid, hpm, hnf]
  simp [make_jsonrpc_error, rpcErrorsLookup, RPC_ERRORS, intAlistLookup]

/-- Witness for C8 at the concrete `reqMissing` fixture. -/
theorem C8_witness :
    call_py svcPlain (JsonValue.obj reqMissingFields) JsonValue.null =
      Except.ok (make_jsonrpc_error_response
        (JsonValue.obj [("name", JsonValue.str "JSONRPCError"),
                        ("code", JsonValue.num (-32601)),
                        ("message", JsonValue.str "Method not found"),
                        ("error", JsonValue.obj
                          [("method", JsonValue.str "missing"),
                           ("available_methods", JsonValue.arr
                             (svcPlain.method_registry.map (fun p => JsonValue.str p.1)))])])
        (pyGetFields reqMissingFields "id")) :=
  C8_method_not_found_envelope svcPlain reqMissingFields JsonValue.null "missing" rfl rfl rfl

/-- C4 counterexample: the claim states that a handler raising a plain
exception yields a generic server-error envelope with code -32000 whose
top-level message is the fixed "unexpected exception" text.  At the
concrete `reqBoom` fixture the envelope's code is -32002 (not -32000) and
its top-level message is "Exception calling method"; the fixed
"unexpected exception" text and the original exception text live in the
diagnostic data. -/
theorem C4_counterexample_unexpected_exception_code :
    call_py svcPlain reqBoom JsonValue.null =
      Except.ok (JsonValue.obj [("version", JsonValue.str "1.1"),
        ("error", JsonValue.obj [("name", JsonValue.str "JSONRPCError"),
          ("code", JsonValue.num (-32002)),
          ("message", JsonValue.str "Exception calling method"),
          ("error", JsonValue.obj
            [("message", JsonValue.str "An unexpected exception was caught executing the method"),
             ("exception_message", JsonValue.str "boom"),
             ("traceback", format_exc (.other "boom")),
             ("method", JsonValue.str "boom")])]),
        ("id", JsonValue.num 7)]) ∧
    JsonValue.num (-32002) ≠ JsonValue.num (-32000) :=
  ⟨rfl, by intro h; injection h with h1; omega⟩

/-- C4 (amended): a handler-raised plain exception yields an envelope
with code -32002 and top-level message "Exception calling method"; the
fixed "An unexpected exception was caught executing the method" text is
the diagnostic data's message, and `exception_message` preserves the
original exception's text. -/
theorem C4_amended_unexpected_exception_envelope (svc : JSONRPCService)
    (fields : List (String × JsonValue)) (options : JsonValue)
    (mname : String) (method : Method) (msg : String)
    (hvalid : validateRequestSchema (JsonValue.obj fields) = none)
    (hm : alistLookup fields "method" = some (JsonValue.str mname))
    (hfound : alistLookup svc.method_registry mname = some method)
    (hinv : invoke svc mname method (pyGetFields fields "params") options =
      Except.error (.other msg)) :
    call_py svc (JsonValue.obj fields) options =
      Except.ok (make_jsonrpc_error_response
        (JsonValue.obj [("name", JsonValue.str "JSONRPCError"),
                        ("code", JsonValue.num (-32002)),
                        ("message", JsonValue.str "Exception calling method"),
                        ("error", JsonValue.obj
                          [("message", JsonValue.str "An unexpected exception was caught executing the method"),
                           ("exception_message", JsonValue.str msg),
                           ("traceback", format_exc (.other msg)),
                           ("method", JsonValue.str mname)])])
        (pyGetFields fields "id")) := by
  have hpm : pyGetFields fields "method" = JsonValue.str mname := by
    unfold pyGetFields; rw [hm]; rfl
  unfold call_py
  simp only [hvalid, hpm, hfound, hinv]
  simp [handle_call_exception, make_jsonrpc_error, make_error_response,
        isNull, alistLookup, dictSet, pyExcStr]

/-- Witness for C4 (amended) at the concrete `reqBoom` fixture. -/
theorem C4_witness :
    call_py svcPlain (JsonValue.obj reqBoomFields) JsonValue.null =
      Except.ok (make_jsonrpc_error_response
        (JsonValue.obj [("name", JsonValue.str "JSONRPCError"),
                        ("code", JsonValue.num (-32002)),
                        ("message", JsonValue.str "Exception calling method"),
                        ("error", JsonValue.obj
                          [("message", JsonValue.str "An unexpected exception was caught executing the method"),
                           ("exception_message", JsonValue.str "boom"),
                           ("traceback", format_exc (.other "boom")),
                           ("method", JsonValue.str "boom")])])
        (pyGetFields reqBoomFields "id")) :=
  C4_amended_unexpected_exception_envelope svcPlain reqBoomFields JsonValue.null
    "boom" methBoom "boom" rfl rfl rfl rfl

/-- C5 counterexample: the claim states that for every application error
with a code in the reserved band, the returned envelope's code is never
the handler's colliding code.  When the handler's colliding code is
exactly -32001 — the code of `ServerError_ReservedErrorCode` itself —
the envelope's code (-32001) equals the handler's code, refuting the
universal claim (first conjunct: the handler raises `APIError` with code
-32001; second: the envelope's code field is -32001). -/
theorem C5_counterexample_collision_at_32001 :
    methCollide32001.call JsonValue.null JsonValue.null =
      Except.error (.api (-32001) (some "app error") none) ∧
    call_py svcPlain reqCollide32001 JsonValue.null =
      Except.ok (JsonValue.obj [("version", JsonValue.str "1.1"),
        ("error", JsonValue.obj [("name", JsonValue.str "JSONRPCError"),
          ("code", JsonValue.num (-32001)),
          ("message", JsonValue.str "Reserved Error Code"),
          ("error", JsonValue.obj [("bad_code", JsonValue.num (-32001)),
                                   ("method", JsonValue.str "collide32001")])]),
        ("id", JsonValue.num 9)]) :=
  ⟨rfl, rfl⟩

/-- C5 (amended): an application error whose code lies in the reserved
band [-32768, -32000] yields the `ServerError_ReservedErrorCode` envelope
with code -32001 and the offending code as `bad_code` diagnostic data;
the envelope's code differs from the handler's colliding code except in
the single case where that code is itself -32001. -/
theorem C5_amended_reserved_code_collision (svc : JSONRPCService)
    (fields : List (String × JsonValue)) (options : JsonValue)
    (mname : String) (method : Method) (code : Int) (msg : Option String)
    (data : Option (List (String × JsonValue)))
    (hvalid : validateRequestSchema (JsonValue.obj fields) = none)
    (hm : alistLookup fields "method" = some (JsonValue.str mname))
    (hfound : alistLookup svc.method_registry mname = some method)
    (hinv : invoke svc mname method (pyGetFields fields "params") options =
      Except.error (.api code msg data))
    (hlo : -32768 ≤ code) (hhi : code ≤ -32000) :
    call_py svc (JsonValue.obj fields) options =
      Except.ok (make_jsonrpc_error_response
        (JsonValue.obj [("name", JsonValue.str "JSONRPCError"),
                        ("code", JsonValue.num (-32001)),
                        ("message", JsonValue.str "Reserved Error Code"),
                        ("error", JsonValue.obj [("bad_code", JsonValue.num code),
                                                 ("method", JsonValue.str mname)])])
        (pyGetFields fields "id")) ∧
    (code ≠ -32001 → JsonValue.num (-32001) ≠ JsonValue.num code) := by
  have hpm : pyGetFields fields "method" = JsonValue.str mname := by
    unfold pyGetFields; rw [hm]; rfl
  constructor
  · unfold call_py
    simp only [hvalid, hpm, hfound, hinv]
    simp [handle_call_exception, hlo, hhi, JSONRPCError_to_json, make_error_response,
          pyStrOpt, isNull, alistLookup, dictSet]
  · intro hne h
    injection h with h1
    exact hne h1.symm

/-- Witness for C5 (amended) at the concrete `reqCollide` fixture, whose
handler raises an `APIError` with the reserved-band code -32050. -/
theorem C5_witness :
    (call_py svcPlain (JsonValue.obj reqCollideFields) JsonValue.null =
      Except.ok (make_jsonrpc_error_response
        (JsonValue.obj [("name", JsonValue.str "JSONRPCError"),
                        ("code", JsonValue.num (-32001)),
                        ("message", JsonValue.str "Reserved Error Code"),
                        ("error", JsonValue.obj [("bad_code", JsonValue.num (-32050)),
                                                 ("method", JsonValue.str "collide")])])
        (pyGetFields reqCollideFields "id"))) ∧
    ((-32050 : Int) ≠ -32001 → JsonValue.num (-32001) ≠ JsonValue.num (-32050)) :=
  C5_amended_reserved_code_collision svcPlain reqCollideFields JsonValue.null
    "collide" methCollide (-32050) (some "app error") none
    rfl rfl rfl rfl (by decide) (by decide)

/-- C7 counterexample: the claim states that `system.`-prefixed built-in
methods have both parameter-role and result-role validation performed
against the fixed system schema set.  At the concrete `svcSys` fixture
the system schema set declares a result role for `system.echo` (first
conjunct) that accepts the returned value (second conjunct), yet the
engine consults the service's own schema set for the result role and
fails with "Validation is enabled, but no result validator was provided"
(third conjunct) — so result-role validation is not performed against
the system schema set. -/
theorem C7_counterexample_system_result_uses_service_schemas :
    sysRoles.has_result_validation "system.echo" = true ∧
    sysRoles.validate_result "system.echo" (JsonValue.arr []) = none ∧
    call_py svcSys reqSysEcho JsonValue.null =
      Except.ok (JsonValue.obj [("version", JsonValue.str "1.1"),
        ("error", JsonValue.obj [("name", JsonValue.str "JSONRPCError"),
          ("code", JsonValue.num (-32602)),
          ("message", JsonValue.str "Invalid params"),
          ("error", JsonValue.obj
            [("message", JsonValue.str "Validation is enabled, but no result validator was provided"),
             ("method", JsonValue.str "system.echo")])]),
        ("id", JsonValue.num 13)]) :=
  ⟨rfl, rfl, rfl⟩

/-- C7 (amended): parameter-role validation of a `system.`-prefixed
method uses the fixed system schema set (`do_method` selects
`system_validation`), while result-role validation always consults the
service's own schema set — `do_result` is invariant under any change of
the system validation bindings. -/
theorem C7_amended_system_namespace_validation (svc : JSONRPCService)
    (mname : String) (method : Method) (params options r : JsonValue) (v : Validation)
    (hsys : startswith mname "system." = true) :
    do_method svc mname method params options =
      do_method_validator (some svc.system_validation) mname method params options ∧
    do_result { svc with system_validation := v } mname r = do_result svc mname r := by
  constructor
  · simp [do_method, hsys]
  · rfl

/-- Witness for C7 (amended) at the concrete `svcSys` fixture. -/
theorem C7_witness :
    do_method svcSys "system.echo" methEcho (JsonValue.arr []) JsonValue.null =
      do_method_validator (some svcSys.system_validation) "system.echo" methEcho
        (JsonValue.arr []) JsonValue.null ∧
    do_result { svcSys with system_validation := noRoles } "system.echo" (JsonValue.arr []) =
      do_result svcSys "system.echo" (JsonValue.arr []) :=
  C7_amended_system_namespace_validation svcSys "system.echo" methEcho
    (JsonValue.arr []) JsonValue.null (JsonValue.arr []) noRoles rfl

/-- C9: for every registry state, adding under a name that is already
bound (the pre-seeded `system.describe` included) raises
`DuplicateMethodName` and leaves the registry unchanged, while adding
under an unbound name binds it and returns successfully. -/
theorem C9_add_duplicate_name (svc : JSONRPCService) (func : Method)
    (dname : String) (n : String) (hn : n ≠ "") :
    ((alistLookup svc.method_registry n).isSome = true →
      add svc func dname (some n) =
        (svc, some (.duplicateMethodName
          ("Method already registered under this name: " ++ sglQuote ++ n ++ sglQuote)))) ∧
    ((alistLookup svc.method_registry n).isSome = false →
      add svc func dname (some n) =
        ({ svc with method_registry := svc.method_registry ++ [(n, func)] }, none)) := by
  constructor
  · intro hb; simp [add, hn, hb]
  · intro hb; simp [add, hn, hb]

/-- Witness for C9: re-registering the pre-seeded `system.describe` fails
and leaves the registry unchanged; registering the fresh name "fresh"
binds it. -/
theorem C9_witness :
    add svcPlain methEcho "handler" (some "system.describe") =
      (svcPlain, some (.duplicateMethodName
        ("Method already registered under this name: " ++ sglQuote ++ "system.describe" ++ sglQuote))) ∧
    add svcPlain methEcho "handler" (some "fresh") =
      ({ svcPlain with method_registry := svcPlain.method_registry ++ [("fresh", methEcho)] }, none) :=
  ⟨(C9_add_duplicate_name svcPlain methEcho "handler" "system.describe" (by decide)).1 rfl,
   (C9_add_duplicate_name svcPlain methEcho "handler" "fresh" (by decide)).2 rfl⟩

/-- C10 counterexample: the claim states that a handler-raised
`JSONRPCError` has its code, message and data returned unchanged.  At the
concrete `reqProto` fixture the handler raises a `JSONRPCError` with data
`{x: 1}` (first conjunct), the reserved-band code -32050 is indeed
forwarded as-is, but the returned data is `{x: 1, method: "proto"}`
(second conjunct), which differs from the handler's `{x: 1}` (third
conjunct) — the data is not returned unchanged. -/
theorem C10_counterexample_data_extended_with_method :
    methProto.call JsonValue.null JsonValue.null =
      Except.error (.jsonrpc (-32050) (some "custom") (some [("x", JsonValue.num 1)])) ∧
    call_py svcPlain reqProto JsonValue.null =
      Except.ok (JsonValue.obj [("version", JsonValue.str "1.1"),
        ("error", JsonValue.obj [("name", JsonValue.str "JSONRPCError"),
          ("code", JsonValue.num (-32050)),
          ("message", JsonValue.str "custom"),
          ("error", JsonValue.obj [("x", JsonValue.num 1),
                                   ("method", JsonValue.str "proto")])]),
        ("id", JsonValue.num 10)]) ∧
    JsonValue.obj [("x", JsonValue.num 1), ("method", JsonValue.str "proto")] ≠
      JsonValue.obj [("x", JsonValue.num 1)] :=
  ⟨rfl, rfl, by intro h; injection h with h1; simp at h1⟩

/-- C10 (amended): a handler-raised `JSONRPCError` is converted to the
response's error object with its code and message forwarded verbatim and
with no reserved-band interception (the interception applies only to the
`APIError` family); its data, however, is extended with a `method` key
naming the invoked method (created as `{method: name}` when the error
carried no data) before being returned. -/
theorem C10_amended_jsonrpc_error_passthrough (svc : JSONRPCService)
    (fields : List (String × JsonValue)) (options : JsonValue)
    (mname : String) (method : Method) (code : Int) (msg : Option String)
    (data : Option (List (String × JsonValue)))
    (hvalid : validateRequestSchema (JsonValue.obj fields) = none)
    (hm : alistLookup fields "method" = some (JsonValue.str mname))
    (hfound : alistLookup svc.method_registry mname = some method)
    (hinv : invoke svc mname method (pyGetFields fields "params") options =
      Except.error (.jsonrpc code msg data)) :
    call_py svc (JsonValue.obj fields) options =
      Except.ok (make_jsonrpc_error_response
        (JsonValue.obj [("name", JsonValue.str "JSONRPCError"),
                        ("code", JsonValue.num code),
                        ("message", JsonValue.str (pyStrOpt msg)),
                        ("error", JsonValue.obj
                          (dictSet (data.getD []) "method" (JsonValue.str mname)))])
        (pyGetFields fields "id")) := by
  have hpm : pyGetFields fields "method" = JsonValue.str mname := by
    unfold pyGetFields; rw [hm]; rfl
  unfold call_py
  simp only [hvalid, hpm, hfound, hinv]
  cases data with
  | none =>
      simp [handle_call_exception, JSONRPCError_to_json, make_error_response,
            isNull, alistLookup, dictSet]
  | some d =>
      simp [handle_call_exception, JSONRPCError_to_json, make_error_response,
            isNull, alistLookup, dictSet]

/-- Witness for C10 (amended) at the concrete `reqProto` fixture. -/
theorem C10_witness :
    call_py svcPlain (JsonValue.obj reqProtoFields) JsonValue.null =
      Except.ok (make_jsonrpc_error_response
        (JsonValue.obj [("name", JsonValue.str "JSONRPCError"),
                        ("code", JsonValue.num (-32050)),
                        ("message", JsonValue.str (pyStrOpt (some "custom"))),
                        ("error", JsonValue.obj
                          (dictSet ((some [("x", JsonValue.num 1)]).getD []) "method"
                            (JsonValue.str "proto")))])
        (pyGetFields reqProtoFields "id")) :=
  C10_amended_jsonrpc_error_passthrough svcPlain reqProtoFields JsonValue.null
    "proto" methProto (-32050) (some "custom") (some [("x", JsonValue.num 1)])
    rfl rfl rfl rfl
